import Mathlib

/-!
Verification of the isomer-mail outbound dispatch pipeline
(src/isomer/mail/transmitter.py) against its specification.

The embedding models:
* the Account Registry entries (`Account`) and the transmitter
  configuration (`Config`), following the configprops schema;
* the Address Renderer (`render`), modelled from the spec since the
  implementation is the external pystache library;
* the dispatcher `MailTransmitter.send_mail`, as a pure function from
  configuration, hostname and send event to an observable
  `DispatchOutcome`;
* the SMTP worker `send_mail_worker`, as a function of an explicit
  server-behaviour oracle (`ServerBehavior`) recording the network
  operations attempted (`NetOp`) and the returned or raised result
  (`WorkerResult`).
-/

/-- One entry of the accounts array in the transmitter configuration
(configprops, accounts items). -/
structure Account where
  name : String
  server : String
  port : Nat
  ssl : Bool
  tls : Bool
  username : String
  password : String
  mail_from : String
  use_sendmail : Bool
  sendmail_binary : String
  sendmail_extra_arguments : String
deriving DecidableEq, Repr

/-- The transmitter configuration: the global send toggle, the default
account name, and the ordered account registry. -/
structure Config where
  mail_send : Bool
  default_account : String
  accounts : List Account
deriving DecidableEq, Repr

/-- The send_mail event consumed by the dispatcher: recipient, subject,
body text, and the account selector (field `account`). -/
structure SendMailEvent where
  to_address : String
  subject : String
  text : String
  account : String
deriving DecidableEq, Repr

/-- The constructed MIME message: `Subject`, rendered `From`, `To` and the
plain-text body, as assembled in `MailTransmitter.send_mail`. -/
structure MimeMail where
  from_addr : String
  to_addr : String
  subject : String
  text : String
deriving DecidableEq, Repr

/-- Serialization of the constructed message (MIMEText as_string),
modelled as headers followed by a blank line and the body. -/
def MimeMail.as_string (m : MimeMail) : String :=
  "Subject: " ++ m.subject ++ "\nFrom: " ++ m.from_addr ++ "\nTo: "
    ++ m.to_addr ++ "\n\n" ++ m.text

/-- Split a character list at every character satisfying `p`, keeping
empty fragments, as Python string split with an explicit separator
does. -/
def splitChars (p : Char → Bool) : List Char → List (List Char)
  | [] => [[]]
  | c :: rest =>
    if p c then [] :: splitChars p rest
    else
      match splitChars p rest with
      | [] => [[c]]
      | g :: gs => (c :: g) :: gs

/-- Python split with the single-space separator, the exact semantics of
the call sendmail_extra_arguments.split(chr 32) in the dispatcher:
consecutive spaces produce empty fragments and no other whitespace
separates. -/
def split_space (s : String) : List String :=
  (splitChars (fun c => c == ' ') s.data).map (fun g => String.mk g)

/-- Modelled from the spec: splitting a string on whitespace (runs of
whitespace separate fragments, no empty fragments), the reading of
"split on whitespace" in the Delegated Command Backend contract. -/
def split_on_whitespace (s : String) : List String :=
  ((splitChars Char.isWhitespace s.data).map (fun g => String.mk g)).filter
    (fun t => t != "")

/-- Look up a variable by key in the renderer variable set. -/
def lookupVar (vars : List (String × String)) (key : String) : Option String :=
  (vars.find? (fun p => p.fst == key)).map (fun p => p.snd)

/-- Scan for the closing double brace of a placeholder: returns the
characters of the placeholder name and the remainder after the closer. -/
def findClose : List Char → Option (List Char × List Char)
  | [] => none
  | '}' :: '}' :: rest => some ([], rest)
  | c :: rest =>
    match findClose rest with
    | none => none
    | some (nm, after) => some (c :: nm, after)

/-- Modelled from the spec: the Address Renderer (implemented by the
external pystache render, not part of this repository). Pure
substitution of named double-brace placeholders; a placeholder whose name
is not bound in the variable set is left in the output as literal text.
Fuel-indexed scan over the character list. -/
def renderAux (vars : List (String × String)) : Nat → List Char → List Char
  | 0, cs => cs
  | _ + 1, [] => []
  | fuel + 1, '{' :: '{' :: rest =>
    match findClose rest with
    | none => '{' :: '{' :: renderAux vars fuel rest
    | some (nm, after) =>
      match lookupVar vars (String.mk nm) with
      | some v => v.data ++ renderAux vars fuel after
      | none => '{' :: '{' :: (nm ++ '}' :: '}' :: renderAux vars fuel after)
  | fuel + 1, c :: rest => c :: renderAux vars fuel rest

/-- Modelled from the spec: render(template, vars) of the Address
Renderer. -/
def render (template : String) (vars : List (String × String)) : String :=
  String.mk (renderAux vars template.data.length template.data)

/-- Account resolution (`MailTransmitter.send_mail`): the literal selector
default is replaced by the configured default account name; any other
selector is used verbatim. -/
def resolveName (config : Config) (selector : String) : String :=
  if selector == "default" then config.default_account else selector

/-- The filtered account list of the dispatcher lookup: all registry
entries whose name equals the resolved account name, in registry
order. -/
def matchingAccounts (config : Config) (name : String) : List Account :=
  config.accounts.filter (fun a => a.name == name)

/-- Message construction in `MailTransmitter.send_mail`: the From header
is rendered from the account template with server and hostname
variables; To, Subject and body come from the event. -/
def buildMime (hostname : String) (account : Account) (ev : SendMailEvent) :
    MimeMail :=
  { from_addr := render account.mail_from
      [("server", account.server), ("hostname", hostname)]
    to_addr := ev.to_address
    subject := ev.subject
    text := ev.text }

/-- The observable outcome of one dispatch call.
`lookupError` models the uncaught IndexError raised by taking element 0
of an empty filter result: no log line is emitted by the transmitter, no
backend is contacted, and the fault escapes the send_mail method.
`suppressed` models the mail_send false branch: the constructed message
is logged for debugging and no backend is contacted. `delegated` models
the synchronous run_process invocation of the sendmail binary, carrying
the argument list and the serialized message fed on standard input.
`queued` models firing exactly one worker-pool task carrying
send_mail_worker, the account and the constructed message. -/
inductive DispatchOutcome where
  | lookupError
  | suppressed (mime : MimeMail)
  | delegated (binary : String) (args : List String) (stdin : String)
  | queued (account : Account) (mime : MimeMail)
deriving DecidableEq, Repr

/-- The body of `MailTransmitter.send_mail` after the account lookup
succeeded with `account`. -/
def dispatchAccount (config : Config) (hostname : String)
    (ev : SendMailEvent) (account : Account) : DispatchOutcome :=
  let mime := buildMime hostname account ev
  if config.mail_send then
    if account.use_sendmail then
      DispatchOutcome.delegated account.sendmail_binary
        (split_space account.sendmail_extra_arguments) mime.as_string
    else
      DispatchOutcome.queued account mime
  else
    DispatchOutcome.suppressed mime

/-- `MailTransmitter.send_mail`: resolve the selector, look the account up
by exact name match taking the head of the filtered list, then dispatch. -/
def send_mail (config : Config) (hostname : String) (ev : SendMailEvent) :
    DispatchOutcome :=
  match matchingAccounts config (resolveName config ev.account) with
  | [] => DispatchOutcome.lookupError
  | account :: _ => dispatchAccount config hostname ev account

/-- The result of one network operation of the SMTP session, as an
explicit oracle value: the server answered (`ok`), the operation hit the
socket timeout (`timedOut`, the socket.timeout exception), or it raised
some other exception such as an authentication or protocol error
(`failed`). -/
inductive NetResult where
  | ok (response : String)
  | timedOut (detail : String)
  | failed (detail : String)
deriving DecidableEq, Repr

/-- Whether a network operation succeeded. -/
def NetResult.isOk : NetResult → Bool
  | .ok _ => true
  | _ => false

/-- The behaviour of the SMTP server for one worker run: the outcome of
each potential session step. -/
structure ServerBehavior where
  connect : NetResult
  starttls : NetResult
  login : NetResult
  send : NetResult
  quit : NetResult
deriving DecidableEq, Repr

/-- One network or protocol operation attempted by `send_mail_worker`, in
the order attempted. -/
inductive NetOp where
  | connectSSL (server : String) (port : Nat) (timeoutSecs : Nat)
  | connectPlain (server : String) (port : Nat) (timeoutSecs : Nat)
  | starttls
  | login (username : String) (password : String)
  | sendMessage
  | quit
deriving DecidableEq, Repr

/-- How a `send_mail_worker` run ends: it returns the triple
(success, log, originating event), or an exception other than
socket.timeout escapes the function (`raised`) into the worker pool. -/
inductive WorkerResult where
  | done (success : Bool) (log : String) (originating : SendMailEvent)
  | raised (detail : String)
deriving DecidableEq, Repr

/-- Tail of `send_mail_worker` from the Sending Mail log line on: sending
the message, quitting the session, and appending the server response. -/
def sendPhase (ev : SendMailEvent) (b : ServerBehavior) (log : String)
    (ops : List NetOp) : WorkerResult × List NetOp :=
  let log := log ++ "Sending Mail\n"
  let ops := ops ++ [NetOp.sendMessage]
  match b.send with
  | .timedOut d =>
    (WorkerResult.done false (log ++ "Could not send email: " ++ d ++ "\n") ev,
     ops)
  | .failed d => (WorkerResult.raised d, ops)
  | .ok response =>
    let ops := ops ++ [NetOp.quit]
    match b.quit with
    | .timedOut d =>
      (WorkerResult.done false (log ++ "Could not send email: " ++ d ++ "\n") ev,
       ops)
    | .failed d => (WorkerResult.raised d, ops)
    | .ok _ =>
      (WorkerResult.done true (log ++ "Server response:" ++ response) ev, ops)

/-- Middle of `send_mail_worker`: authenticate when the username is
non-empty, otherwise note the anonymous access, then the send phase. -/
def loginPhase (account : Account) (ev : SendMailEvent) (b : ServerBehavior)
    (log : String) (ops : List NetOp) : WorkerResult × List NetOp :=
  if account.username != "" then
    let log := log ++ "Logging in with " ++ account.username ++ "\n"
    let ops := ops ++ [NetOp.login account.username account.password]
    match b.login with
    | .timedOut d =>
      (WorkerResult.done false (log ++ "Could not send email: " ++ d ++ "\n") ev,
       ops)
    | .failed d => (WorkerResult.raised d, ops)
    | .ok _ => sendPhase ev b log ops
  else
    sendPhase ev b (log ++ "No username, trying anonymous access\n") ops

/-- The worker function send_mail_worker(config, mail, event) of the
transmitter, with the behaviour of the server as an explicit oracle. Only
socket.timeout is caught by the try block (returning the triple with
success false); any other exception escapes as `WorkerResult.raised`. The
second component records the network operations attempted, in order. -/
def send_mail_worker (account : Account) (mail : MimeMail)
    (ev : SendMailEvent) (b : ServerBehavior) : WorkerResult × List NetOp :=
  let _ := mail
  let connectOp :=
    if account.ssl then NetOp.connectSSL account.server account.port 30
    else NetOp.connectPlain account.server account.port 30
  match b.connect with
  | .timedOut d =>
    (WorkerResult.done false ("Could not send email: " ++ d ++ "\n") ev,
     [connectOp])
  | .failed d => (WorkerResult.raised d, [connectOp])
  | .ok _ =>
    if account.tls then
      match b.starttls with
      | .timedOut d =>
        (WorkerResult.done false
          ("Starting TLS\n" ++ "Could not send email: " ++ d ++ "\n") ev,
         [connectOp, NetOp.starttls])
      | .failed d => (WorkerResult.raised d, [connectOp, NetOp.starttls])
      | .ok _ =>
        loginPhase account ev b "Starting TLS\n" [connectOp, NetOp.starttls]
    else
      loginPhase account ev b "" [connectOp]

/-- The task_success handler (Result Reporter): logs a confirmation on
success and an error with the captured log on failure. -/
def task_success (success : Bool) (log : String) : String :=
  if success then "Sent mail successfully."
  else "Sending mail failed:" ++ log

/-- The default account of the shipped configuration: plain SMTP to
localhost, no credentials, direct (non-delegated) delivery. -/
def acctLocalX : Account :=
  { name := "localhost", server := "localhost", port := 25, ssl := false,
    tls := false, username := "", password := "",
    mail_from := "bot@\x7b\x7bserver\x7d\x7d", use_sendmail := false,
    sendmail_binary := "/usr/bin/sendmail",
    sendmail_extra_arguments := "-t -oi" }

/-- A configuration with sending enabled and the single localhost
account. -/
def cfgLocalX : Config :=
  { mail_send := true, default_account := "localhost",
    accounts := [acctLocalX] }

/-- The canned self-test request fired by the cli_test_mail handler. -/
def evTestX : SendMailEvent :=
  { to_address := "root@localhost", subject := "Testmail",
    text := "Hello dear test mail receiver!", account := "default" }

/-- An SSL account with STARTTLS and credentials, for worker runs. -/
def acctAuthX : Account :=
  { name := "smtp", server := "mail.example.org", port := 465, ssl := true,
    tls := true, username := "user", password := "pw",
    mail_from := "bot@\x7b\x7bserver\x7d\x7d", use_sendmail := false,
    sendmail_binary := "/usr/bin/sendmail",
    sendmail_extra_arguments := "-t -oi" }

/-- The message the localhost account builds for the self-test request. -/
def mimeX : MimeMail := buildMime "myhost" acctLocalX evTestX

/-- A server that answers every session step. -/
def bAllOkX : ServerBehavior :=
  { connect := NetResult.ok "220 ready",
    starttls := NetResult.ok "220 go ahead",
    login := NetResult.ok "235 ok", send := NetResult.ok "250 ok",
    quit := NetResult.ok "221 bye" }

/-- A server that rejects the login with an authentication error (an
exception that is not a socket timeout). -/
def bAuthFailX : ServerBehavior :=
  { bAllOkX with login := NetResult.failed "535 authentication failed" }

/-- A server whose login step hits the socket timeout. -/
def bLoginTimeoutX : ServerBehavior :=
  { bAllOkX with login := NetResult.timedOut "timed out" }

/-- The localhost configuration with sending administratively disabled. -/
def cfgOffX : Config := { cfgLocalX with mail_send := false }

/-- A delegated (use_sendmail) account whose extra-argument string holds
two consecutive spaces. -/
def acctDelegateX : Account :=
  { acctLocalX with
    name := "sendmailacct", use_sendmail := true,
    sendmail_extra_arguments := "-t  -oi" }

/-- A configuration holding only the delegated account. -/
def cfgDelegateX : Config :=
  { mail_send := true, default_account := "sendmailacct",
    accounts := [acctDelegateX] }

/-- The self-test request routed to the delegated account. -/
def evDelegateX : SendMailEvent := { evTestX with account := "sendmailacct" }

/-- First of two registry entries sharing the name dup. -/
def acctDupAX : Account :=
  { acctLocalX with
    name := "dup", server := "first.example.org" }

/-- Second of two registry entries sharing the name dup. -/
def acctDupBX : Account :=
  { acctLocalX with
    name := "dup", server := "second.example.org" }

/-- A registry with two accounts of the same name, in order. -/
def cfgDupX : Config :=
  { mail_send := true, default_account := "dup",
    accounts := [acctDupAX, acctDupBX] }

/-- The self-test request routed to the duplicated name. -/
def evDupX : SendMailEvent := { evTestX with account := "dup" }

theorem sendPhase_originating (ev : SendMailEvent) (b : ServerBehavior)
    (log : String) (ops : List NetOp) (s : Bool) (l : String)
    (o : SendMailEvent)
    (h : (sendPhase ev b log ops).fst = WorkerResult.done s l o) : o = ev := by
  unfold sendPhase at h
  cases hs : b.send <;> cases hq : b.quit <;> simp_all

theorem loginPhase_originating (account : Account) (ev : SendMailEvent)
    (b : ServerBehavior) (log : String) (ops : List NetOp) (s : Bool)
    (l : String) (o : SendMailEvent)
    (h : (loginPhase account ev b log ops).fst = WorkerResult.done s l o) :
    o = ev := by
  unfold loginPhase at h
  by_cases hu : account.username = ""
  · simp [hu] at h
    exact sendPhase_originating ev b _ _ s l o h
  · simp [hu] at h
    cases hl : b.login <;> simp_all
    · exact sendPhase_originating ev b _ _ s l o h

theorem send_mail_worker_originating (account : Account) (mail : MimeMail)
    (ev : SendMailEvent) (b : ServerBehavior) (s : Bool) (l : String)
    (o : SendMailEvent)
    (h : (send_mail_worker account mail ev b).fst = WorkerResult.done s l o) :
    o = ev := by
  unfold send_mail_worker at h
  cases hc : b.connect <;> simp_all
  by_cases ht : account.tls
  · simp [ht] at h
    cases hst : b.starttls <;> simp_all
    · exact loginPhase_originating account ev b _ _ s l o h
  · simp [ht] at h
    exact loginPhase_originating account ev b _ _ s l o h

/-- Claim C1, counterexample to the claim as stated: dispatching with the
selector missing, which matches no account of the registry, yields the
`lookupError` outcome, which by construction is the uncaught IndexError
escaping `send_mail` with no error logged by the transmitter and no
outcome event; the claim instead promises a logged AccountNotFound error
that does not propagate out of the dispatcher. -/
theorem send_mail_missing_account_counterexample :
    send_mail cfgLocalX "myhost" { evTestX with account := "missing" } =
      DispatchOutcome.lookupError := by rfl

/-- Claim C1, amended: whenever the resolved selector matches no account
name in the registry, dispatch fails before any network or process
activity (no backend outcome, no worker task, no suppressed-message log)
by raising an uncaught IndexError out of the send_mail handler; nothing
is logged by the transmitter and no outcome event is produced. -/
theorem send_mail_missing_account_raises (cfg : Config) (hostname : String)
    (ev : SendMailEvent)
    (h : matchingAccounts cfg (resolveName cfg ev.account) = []) :
    send_mail cfg hostname ev = DispatchOutcome.lookupError := by
  simp [send_mail, h]

theorem send_mail_missing_account_raises_witness :
    matchingAccounts cfgLocalX
        (resolveName cfgLocalX
          ({ evTestX with account := "nosuch" } : SendMailEvent).account)
      = [] ∧
    send_mail cfgLocalX "myhost" { evTestX with account := "nosuch" } =
      DispatchOutcome.lookupError :=
  ⟨rfl, send_mail_missing_account_raises cfgLocalX "myhost"
    { evTestX with account := "nosuch" } rfl⟩

/-- Claim C2, counterexample to the claim as stated: an authentication
failure during login is not converted into a success-false outcome; the
worker run ends with the exception escaping (`raised`) into the worker
pool, unlike the timeout case. -/
theorem worker_auth_failure_counterexample :
    (send_mail_worker acctAuthX mimeX evTestX bAuthFailX).fst =
      WorkerResult.raised "535 authentication failed" := by rfl

/-- Claim C2, amended: the worker catches only socket.timeout; any other
exception raised at any session step reached — connect, STARTTLS, login,
message submission or quit — escapes send_mail_worker uncaught into the
worker pool instead of being reported as a success-false outcome. -/
theorem worker_nontimeout_errors_escape (account : Account) (mail : MimeMail)
    (ev : SendMailEvent) (b : ServerBehavior) :
    (∀ d, b.connect = NetResult.failed d →
      (send_mail_worker account mail ev b).fst = WorkerResult.raised d) ∧
    (∀ d r, b.connect = NetResult.ok r → account.tls = true →
      b.starttls = NetResult.failed d →
      (send_mail_worker account mail ev b).fst = WorkerResult.raised d) ∧
    (∀ d r, b.connect = NetResult.ok r →
      (account.tls = true → ∃ q, b.starttls = NetResult.ok q) →
      account.username ≠ "" → b.login = NetResult.failed d →
      (send_mail_worker account mail ev b).fst = WorkerResult.raised d) ∧
    (∀ d r, b.connect = NetResult.ok r →
      (account.tls = true → ∃ q, b.starttls = NetResult.ok q) →
      (account.username ≠ "" → ∃ q, b.login = NetResult.ok q) →
      b.send = NetResult.failed d →
      (send_mail_worker account mail ev b).fst = WorkerResult.raised d) ∧
    (∀ d r rs, b.connect = NetResult.ok r →
      (account.tls = true → ∃ q, b.starttls = NetResult.ok q) →
      (account.username ≠ "" → ∃ q, b.login = NetResult.ok q) →
      b.send = NetResult.ok rs → b.quit = NetResult.failed d →
      (send_mail_worker account mail ev b).fst = WorkerResult.raised d) := by
  obtain ⟨bc, bs, bl, bsd, bq⟩ := b
  refine ⟨?_, ?_, ?_, ?_, ?_⟩
  · rintro d rfl
    by_cases hssl : account.ssl <;> simp [send_mail_worker, hssl]
  · rintro d r rfl htls rfl
    simp [send_mail_worker, htls]
  · rintro d r rfl htls hu rfl
    by_cases ht : account.tls
    · obtain ⟨q, rfl⟩ := htls ht
      simp [send_mail_worker, loginPhase, ht, hu]
    · simp [send_mail_worker, loginPhase, ht, hu]
  · rintro d r rfl htls hlog rfl
    by_cases ht : account.tls <;> by_cases hu : account.username = ""
    · obtain ⟨q, rfl⟩ := htls ht
      simp [send_mail_worker, loginPhase, sendPhase, ht, hu]
    · obtain ⟨q, rfl⟩ := htls ht
      obtain ⟨q2, rfl⟩ := hlog hu
      simp [send_mail_worker, loginPhase, sendPhase, ht, hu]
    · simp [send_mail_worker, loginPhase, sendPhase, ht, hu]
    · obtain ⟨q2, rfl⟩ := hlog hu
      simp [send_mail_worker, loginPhase, sendPhase, ht, hu]
  · rintro d r rs rfl htls hlog rfl rfl
    by_cases ht : account.tls <;> by_cases hu : account.username = ""
    · obtain ⟨q, rfl⟩ := htls ht
      simp [send_mail_worker, loginPhase, sendPhase, ht, hu]
    · obtain ⟨q, rfl⟩ := htls ht
      obtain ⟨q2, rfl⟩ := hlog hu
      simp [send_mail_worker, loginPhase, sendPhase, ht, hu]
    · simp [send_mail_worker, loginPhase, sendPhase, ht, hu]
    · obtain ⟨q2, rfl⟩ := hlog hu
      simp [send_mail_worker, loginPhase, sendPhase, ht, hu]

theorem worker_nontimeout_errors_escape_witness :
    (send_mail_worker acctAuthX mimeX evTestX bAuthFailX).fst =
      WorkerResult.raised "535 authentication failed" :=
  (worker_nontimeout_errors_escape acctAuthX mimeX evTestX bAuthFailX).2.2.1
    "535 authentication failed" "220 ready" rfl
    (fun _ => ⟨"220 go ahead", rfl⟩) (by decide) rfl

/-- Claim C3: the Address Renderer is a pure, deterministic function of
template and variables; the server and hostname placeholders are
substituted from the variable set; a placeholder not bound in the
variable set is left in the output as literal text; and the concrete
example of the spec renders as required. -/
theorem render_pure_and_substitutes :
    (∀ (t : String) (v : List (String × String)), render t v = render t v) ∧
    (∀ s h : String, render "bot@\x7b\x7bserver\x7d\x7d"
        [("server", s), ("hostname", h)] = "bot@" ++ s) ∧
    (∀ s h : String, render "x\x7b\x7bhostname\x7d\x7d"
        [("server", s), ("hostname", h)] = "x" ++ h) ∧
    (∀ v : List (String × String), lookupVar v "unknown" = none →
      render "a\x7b\x7bunknown\x7d\x7db" v = "a\x7b\x7bunknown\x7d\x7db") ∧
    render "bot@\x7b\x7bserver\x7d\x7d"
        [("server", "mail.example.org"), ("hostname", "h")]
      = "bot@mail.example.org" := by
  refine ⟨fun t v => rfl, ?_, ?_, ?_, rfl⟩
  · intro s h
    obtain ⟨d⟩ := s
    simp [render, renderAux, findClose, lookupVar]
    rfl
  · intro s h
    obtain ⟨d⟩ := h
    simp [render, renderAux, findClose, lookupVar]
    rfl
  · intro v hv
    simp [render, renderAux, findClose, hv]

theorem render_pure_and_substitutes_witness :
    render "bot@\x7b\x7bserver\x7d\x7d"
        [("server", "mail.example.org"), ("hostname", "h")]
      = "bot@mail.example.org" ∧
    render "a\x7b\x7bunknown\x7d\x7db" [] = "a\x7b\x7bunknown\x7d\x7db" :=
  ⟨render_pure_and_substitutes.2.2.2.2,
   render_pure_and_substitutes.2.2.2.1 [] rfl⟩

/-- Claim C4: with the mail_send toggle false, no delivery backend is
invoked for any request — the outcome is never a delegated-command
invocation nor a worker-pool task — and when the account lookup succeeds
the fully constructed message is recorded for inspection (`suppressed`),
which produces no delivery outcome. -/
theorem send_mail_gate_blocks_backends (cfg : Config) (hostname : String)
    (ev : SendMailEvent) (h : cfg.mail_send = false) :
    (∀ bin args stdin, send_mail cfg hostname ev ≠
        DispatchOutcome.delegated bin args stdin) ∧
    (∀ acct mime, send_mail cfg hostname ev ≠
        DispatchOutcome.queued acct mime) ∧
    (∀ acct rest, matchingAccounts cfg (resolveName cfg ev.account) =
        acct :: rest →
      send_mail cfg hostname ev =
        DispatchOutcome.suppressed (buildMime hostname acct ev)) := by
  refine ⟨?_, ?_, ?_⟩
  · intro bin args stdin
    unfold send_mail
    cases hm : matchingAccounts cfg (resolveName cfg ev.account) <;>
      simp [dispatchAccount, h]
  · intro acct mime
    unfold send_mail
    cases hm : matchingAccounts cfg (resolveName cfg ev.account) <;>
      simp [dispatchAccount, h]
  · intro acct rest hm
    simp [send_mail, hm, dispatchAccount, h]

theorem send_mail_gate_blocks_backends_witness :
    cfgOffX.mail_send = false ∧
    send_mail cfgOffX "myhost" evTestX =
      DispatchOutcome.suppressed (buildMime "myhost" acctLocalX evTestX) :=
  ⟨rfl, (send_mail_gate_blocks_backends cfgOffX "myhost" evTestX rfl).2.2
    acctLocalX [] rfl⟩

/-- Claim C5: with mail_send true and the lookup resolving to `acct`,
exactly one backend is selected by the delegate flag: with use_sendmail
true the outcome is the synchronous delegated-command invocation (whose
result is part of the dispatch return value, with no outcome event), and
with use_sendmail false the outcome is exactly one worker-pool task
carrying the account and message, so dispatch does not run the session
itself; the worker return value carries the originating event unchanged,
which keys the eventual delivery outcome to its request for the Result
Reporter. -/
theorem send_mail_backend_selection (cfg : Config) (hostname : String)
    (ev : SendMailEvent) (acct : Account) (rest : List Account)
    (hsend : cfg.mail_send = true)
    (hm : matchingAccounts cfg (resolveName cfg ev.account) = acct :: rest) :
    (acct.use_sendmail = true →
      send_mail cfg hostname ev =
        DispatchOutcome.delegated acct.sendmail_binary
          (split_space acct.sendmail_extra_arguments)
          (buildMime hostname acct ev).as_string) ∧
    (acct.use_sendmail = false →
      send_mail cfg hostname ev =
        DispatchOutcome.queued acct (buildMime hostname acct ev)) ∧
    (∀ mail b s l o, (send_mail_worker acct mail ev b).fst =
        WorkerResult.done s l o → o = ev) := by
  refine ⟨?_, ?_, ?_⟩
  · intro hd
    simp [send_mail, hm, dispatchAccount, hsend, hd]
  · intro hd
    simp [send_mail, hm, dispatchAccount, hsend, hd]
  · intro mail b s l o hres
    exact send_mail_worker_originating acct mail ev b s l o hres

theorem send_mail_backend_selection_witness :
    send_mail cfgLocalX "myhost" evTestX =
      DispatchOutcome.queued acctLocalX (buildMime "myhost" acctLocalX evTestX) :=
  (send_mail_backend_selection cfgLocalX "myhost" evTestX acctLocalX []
    rfl rfl).2.1 rfl

/-- Claim C6: on a fully answered session the worker attempts exactly the
session steps, in order: one connect to the account server and port with
the 30-unit timeout, SSL-wrapped exactly when the ssl mode is set and
plaintext otherwise; then STARTTLS exactly when the tls mode is set,
before authentication; then login exactly when the username is non-empty;
then message submission and the clean quit. -/
theorem worker_session_order (account : Account) (mail : MimeMail)
    (ev : SendMailEvent) (b : ServerBehavior)
    (h1 : ∃ r, b.connect = NetResult.ok r)
    (h2 : ∃ r, b.starttls = NetResult.ok r)
    (h3 : ∃ r, b.login = NetResult.ok r)
    (h4 : ∃ r, b.send = NetResult.ok r)
    (h5 : ∃ r, b.quit = NetResult.ok r) :
    (send_mail_worker account mail ev b).snd =
      [if account.ssl then NetOp.connectSSL account.server account.port 30
       else NetOp.connectPlain account.server account.port 30]
      ++ (if account.tls then [NetOp.starttls] else [])
      ++ (if account.username != "" then
            [NetOp.login account.username account.password] else [])
      ++ [NetOp.sendMessage, NetOp.quit] := by
  obtain ⟨bc, bs, bl, bsd, bq⟩ := b
  obtain ⟨r1, rfl⟩ := h1
  obtain ⟨r2, rfl⟩ := h2
  obtain ⟨r3, rfl⟩ := h3
  obtain ⟨r4, rfl⟩ := h4
  obtain ⟨r5, rfl⟩ := h5
  by_cases hssl : account.ssl <;> by_cases htls : account.tls <;>
    by_cases hu : account.username = "" <;>
    simp [send_mail_worker, loginPhase, sendPhase, hssl, htls, hu]

theorem worker_session_order_witness :
    (send_mail_worker acctAuthX mimeX evTestX bAllOkX).snd =
      [NetOp.connectSSL "mail.example.org" 465 30, NetOp.starttls,
       NetOp.login "user" "pw", NetOp.sendMessage, NetOp.quit] :=
  worker_session_order acctAuthX mimeX evTestX bAllOkX
    ⟨"220 ready", rfl⟩ ⟨"220 go ahead", rfl⟩ ⟨"235 ok", rfl⟩
    ⟨"250 ok", rfl⟩ ⟨"221 bye", rfl⟩

/-- Claim C7: a socket timeout at any reached session step makes the
worker return at once with success false and a log whose last line names
the timeout detail (no retry, no exception past the backend boundary; for
the connect case the recorded operations also stop at the connect); when
every step succeeds the worker returns success true with a log recording
every step taken plus the final server response. -/
theorem worker_timeout_vs_success (account : Account) (mail : MimeMail)
    (ev : SendMailEvent) (b : ServerBehavior) :
    (∀ d, b.connect = NetResult.timedOut d →
      send_mail_worker account mail ev b =
        (WorkerResult.done false ("Could not send email: " ++ d ++ "\n") ev,
         [if account.ssl then NetOp.connectSSL account.server account.port 30
          else NetOp.connectPlain account.server account.port 30])) ∧
    (∀ d r, b.connect = NetResult.ok r → account.tls = true →
      b.starttls = NetResult.timedOut d →
      (send_mail_worker account mail ev b).fst =
        WorkerResult.done false
          ("Starting TLS\n" ++ "Could not send email: " ++ d ++ "\n") ev) ∧
    (∀ d r, b.connect = NetResult.ok r →
      (account.tls = true → ∃ q, b.starttls = NetResult.ok q) →
      account.username ≠ "" → b.login = NetResult.timedOut d →
      (send_mail_worker account mail ev b).fst =
        WorkerResult.done false
          ((if account.tls then "Starting TLS\n" else "")
            ++ ("Logging in with " ++ account.username ++ "\n")
            ++ ("Could not send email: " ++ d ++ "\n")) ev) ∧
    (∀ d r, b.connect = NetResult.ok r →
      (account.tls = true → ∃ q, b.starttls = NetResult.ok q) →
      (account.username ≠ "" → ∃ q, b.login = NetResult.ok q) →
      b.send = NetResult.timedOut d →
      (send_mail_worker account mail ev b).fst =
        WorkerResult.done false
          ((if account.tls then "Starting TLS\n" else "")
            ++ (if account.username != "" then
                  "Logging in with " ++ account.username ++ "\n"
                else "No username, trying anonymous access\n")
            ++ "Sending Mail\n"
            ++ ("Could not send email: " ++ d ++ "\n")) ev) ∧
    (∀ d r rs, b.connect = NetResult.ok r →
      (account.tls = true → ∃ q, b.starttls = NetResult.ok q) →
      (account.username ≠ "" → ∃ q, b.login = NetResult.ok q) →
      b.send = NetResult.ok rs → b.quit = NetResult.timedOut d →
      (send_mail_worker account mail ev b).fst =
        WorkerResult.done false
          ((if account.tls then "Starting TLS\n" else "")
            ++ (if account.username != "" then
                  "Logging in with " ++ account.username ++ "\n"
                else "No username, trying anonymous access\n")
            ++ "Sending Mail\n"
            ++ ("Could not send email: " ++ d ++ "\n")) ev) ∧
    (∀ r rs rq, b.connect = NetResult.ok r →
      (account.tls = true → ∃ q, b.starttls = NetResult.ok q) →
      (account.username ≠ "" → ∃ q, b.login = NetResult.ok q) →
      b.send = NetResult.ok rs → b.quit = NetResult.ok rq →
      (send_mail_worker account mail ev b).fst =
        WorkerResult.done true
          ((if account.tls then "Starting TLS\n" else "")
            ++ (if account.username != "" then
                  "Logging in with " ++ account.username ++ "\n"
                else "No username, trying anonymous access\n")
            ++ "Sending Mail\n"
            ++ ("Server response:" ++ rs)) ev) := by
  obtain ⟨bc, bs, bl, bsd, bq⟩ := b
  refine ⟨?_, ?_, ?_, ?_, ?_, ?_⟩
  · rintro d rfl
    by_cases hssl : account.ssl <;> simp [send_mail_worker, hssl]
  · rintro d r rfl htls rfl
    simp [send_mail_worker, htls]
  · rintro d r rfl htls hu rfl
    by_cases ht : account.tls
    · obtain ⟨q, rfl⟩ := htls ht
      simp [send_mail_worker, loginPhase, ht, hu, String.append_assoc]; rfl
    · simp [send_mail_worker, loginPhase, ht, hu, String.append_assoc]; rfl
  · rintro d r rfl htls hlog rfl
    by_cases ht : account.tls <;> by_cases hu : account.username = ""
    · obtain ⟨q, rfl⟩ := htls ht
      simp [send_mail_worker, loginPhase, sendPhase, ht, hu,
        String.append_assoc]; rfl
    · obtain ⟨q, rfl⟩ := htls ht
      obtain ⟨q2, rfl⟩ := hlog hu
      simp [send_mail_worker, loginPhase, sendPhase, ht, hu,
        String.append_assoc]; rfl
    · simp [send_mail_worker, loginPhase, sendPhase, ht, hu,
        String.append_assoc]; rfl
    · obtain ⟨q2, rfl⟩ := hlog hu
      simp [send_mail_worker, loginPhase, sendPhase, ht, hu,
        String.append_assoc]; rfl
  · rintro d r rs rfl htls hlog rfl rfl
    by_cases ht : account.tls <;> by_cases hu : account.username = ""
    · obtain ⟨q, rfl⟩ := htls ht
      simp [send_mail_worker, loginPhase, sendPhase, ht, hu,
        String.append_assoc]; rfl
    · obtain ⟨q, rfl⟩ := htls ht
      obtain ⟨q2, rfl⟩ := hlog hu
      simp [send_mail_worker, loginPhase, sendPhase, ht, hu,
        String.append_assoc]; rfl
    · simp [send_mail_worker, loginPhase, sendPhase, ht, hu,
        String.append_assoc]; rfl
    · obtain ⟨q2, rfl⟩ := hlog hu
      simp [send_mail_worker, loginPhase, sendPhase, ht, hu,
        String.append_assoc]; rfl
  · rintro r rs rq rfl htls hlog rfl rfl
    by_cases ht : account.tls <;> by_cases hu : account.username = ""
    · obtain ⟨q, rfl⟩ := htls ht
      simp [send_mail_worker, loginPhase, sendPhase, ht, hu,
        String.append_assoc]; rfl
    · obtain ⟨q, rfl⟩ := htls ht
      obtain ⟨q2, rfl⟩ := hlog hu
      simp [send_mail_worker, loginPhase, sendPhase, ht, hu,
        String.append_assoc]; rfl
    · simp [send_mail_worker, loginPhase, sendPhase, ht, hu,
        String.append_assoc]; rfl
    · obtain ⟨q2, rfl⟩ := hlog hu
      simp [send_mail_worker, loginPhase, sendPhase, ht, hu,
        String.append_assoc]; rfl

theorem worker_timeout_vs_success_witness :
    (send_mail_worker acctAuthX mimeX evTestX bLoginTimeoutX).fst =
      WorkerResult.done false
        "Starting TLS\nLogging in with user\nCould not send email: timed out\n"
        evTestX ∧
    (send_mail_worker acctAuthX mimeX evTestX bAllOkX).fst =
      WorkerResult.done true
        "Starting TLS\nLogging in with user\nSending Mail\nServer response:250 ok"
        evTestX :=
  ⟨(worker_timeout_vs_success acctAuthX mimeX evTestX bLoginTimeoutX).2.2.1
      "timed out" "220 ready" rfl (fun _ => ⟨"220 go ahead", rfl⟩)
      (by decide) rfl,
   (worker_timeout_vs_success acctAuthX mimeX evTestX bAllOkX).2.2.2.2.2
      "220 ready" "250 ok" "221 bye" rfl (fun _ => ⟨"220 go ahead", rfl⟩)
      (fun _ => ⟨"235 ok", rfl⟩) rfl rfl⟩

/-- Claim C8, counterexample to the claim as stated: the dispatcher
splits the configured argument string on single space characters, not on
whitespace — with the configured string holding two consecutive spaces
the invoked argument list contains an empty argument, which splitting on
whitespace would not produce. -/
theorem send_mail_delegate_split_counterexample :
    send_mail cfgDelegateX "myhost" evDelegateX =
      DispatchOutcome.delegated "/usr/bin/sendmail" ["-t", "", "-oi"]
        (buildMime "myhost" acctDelegateX evDelegateX).as_string ∧
    split_on_whitespace "-t  -oi" = ["-t", "-oi"] ∧
    (["-t", "", "-oi"] : List String) ≠ ["-t", "-oi"] :=
  ⟨rfl, rfl, by decide⟩

/-- Claim C8, amended: with the delegate flag set and mail_send true,
dispatch invokes the configured delegate binary with the argument list
obtained by splitting the configured argument string on single space
characters (keeping the empty fragments arising between consecutive
spaces, and not splitting on other whitespace), feeding the serialized
fully-rendered message on standard input; success is taken from the exit
status of the external run_process facility, which is outside this
repository. -/
theorem send_mail_delegate_invocation (cfg : Config) (hostname : String)
    (ev : SendMailEvent) (acct : Account) (rest : List Account)
    (hsend : cfg.mail_send = true)
    (hm : matchingAccounts cfg (resolveName cfg ev.account) = acct :: rest)
    (hd : acct.use_sendmail = true) :
    send_mail cfg hostname ev =
      DispatchOutcome.delegated acct.sendmail_binary
        (split_space acct.sendmail_extra_arguments)
        (buildMime hostname acct ev).as_string := by
  simp [send_mail, hm, dispatchAccount, hsend, hd]

theorem send_mail_delegate_invocation_witness :
    send_mail cfgDelegateX "myhost" evDelegateX =
      DispatchOutcome.delegated "/usr/bin/sendmail" ["-t", "", "-oi"]
        (buildMime "myhost" acctDelegateX evDelegateX).as_string :=
  send_mail_delegate_invocation cfgDelegateX "myhost" evDelegateX
    acctDelegateX [] rfl rfl rfl

/-- Claim C9: the literal selector default resolves to the configured
default account name — so changing default_account changes what default
resolves to — any other selector is used verbatim, and the lookup is by
exact name match: every account of the filtered list bears the resolved
name, and every registry entry bearing it is in the filtered list. -/
theorem resolveName_default_semantics :
    (∀ cfg : Config, resolveName cfg "default" = cfg.default_account) ∧
    (∀ (cfg : Config) (s : String), s ≠ "default" → resolveName cfg s = s) ∧
    (∀ (cfg : Config) (d : String),
      resolveName { cfg with default_account := d } "default" = d) ∧
    (∀ (cfg : Config) (n : String) (a : Account),
      a ∈ matchingAccounts cfg n → a.name = n) ∧
    (∀ (cfg : Config) (n : String) (a : Account),
      a ∈ cfg.accounts → a.name = n → a ∈ matchingAccounts cfg n) := by
  refine ⟨fun cfg => rfl, ?_, fun cfg d => rfl, ?_, ?_⟩
  · intro cfg s hs
    simp [resolveName, hs]
  · intro cfg n a ha
    simp [matchingAccounts, List.mem_filter] at ha
    exact ha.2
  · intro cfg n a ha hn
    simp [matchingAccounts, List.mem_filter]
    exact ⟨ha, hn⟩

theorem resolveName_default_semantics_witness :
    resolveName cfgLocalX "default" = "localhost" ∧
    resolveName cfgLocalX "somewhere" = "somewhere" ∧
    acctLocalX ∈ matchingAccounts cfgLocalX "localhost" :=
  ⟨resolveName_default_semantics.1 cfgLocalX,
   resolveName_default_semantics.2.1 cfgLocalX "somewhere" (by decide),
   resolveName_default_semantics.2.2.2.2 cfgLocalX "localhost" acctLocalX
     (List.mem_singleton.mpr rfl) rfl⟩

/-- Claim C10: when the filtered list for the resolved selector starts
with `acct`, dispatch behaves exactly as dispatching with `acct`, and
equally as if the registry contained only that first match — later
duplicates are never consulted. -/
theorem send_mail_uses_first_match (cfg : Config) (hostname : String)
    (ev : SendMailEvent) (acct : Account) (rest : List Account)
    (hm : matchingAccounts cfg (resolveName cfg ev.account) = acct :: rest) :
    send_mail cfg hostname ev = dispatchAccount cfg hostname ev acct ∧
    send_mail cfg hostname ev =
      send_mail { cfg with accounts := [acct] } hostname ev := by
  have h1 : send_mail cfg hostname ev = dispatchAccount cfg hostname ev acct := by
    simp [send_mail, hm]
  have hmem : acct ∈ matchingAccounts cfg (resolveName cfg ev.account) := by
    rw [hm]
    exact List.mem_cons_self _ _
  have hname : acct.name = resolveName cfg ev.account := by
    simp [matchingAccounts, List.mem_filter] at hmem
    exact hmem.2
  refine ⟨h1, ?_⟩
  have h2 : send_mail { cfg with accounts := [acct] } hostname ev =
      dispatchAccount { cfg with accounts := [acct] } hostname ev acct := by
    simp [send_mail, matchingAccounts, resolveName, hname]
  rw [h1, h2]
  rfl

theorem send_mail_uses_first_match_witness :
    send_mail cfgDupX "myhost" evDupX =
      send_mail { cfgDupX with accounts := [acctDupAX] } "myhost" evDupX :=
  (send_mail_uses_first_match cfgDupX "myhost" evDupX acctDupAX
    [acctDupBX] rfl).2
